import Mathlib

/-!
# Verification of connect-loki (src/lib/connect-loki.js)

Shallow embedding of the Loki.js session store for Connect/Express.

The store keeps session records in a Loki.js collection.  We model the
collection as a list of records in insertion order (`collection.find`
returns matches in insertion order, `collection.insert` appends,
`collection.update` mutates a document in place, `collection.findAndRemove`
removes every match, `collection.clear` empties the collection, and
`collection.count` returns the number of documents).

JavaScript values are modelled by `JsValue`, with truthiness as in
JavaScript.  Time is an abstract `Nat` timestamp (`new Date()` is the
current time).  A façade call either throws a `JsError` (a `TypeError`,
when `this.collection` is still `undefined` because the asynchronous
`loadDatabase` callback has not yet run) or returns the updated store
state together with the arguments passed to the callback `fn`.
-/

/-- JavaScript values, as far as the store observes them: the payload is
opaque (objects and functions are represented by an abstract tag), but
truthiness and strict equality matter to the code. -/
inductive JsValue where
  | undefined
  | null
  | bool (b : Bool)
  | num (n : Int)
  | str (s : String)
  | obj (tag : Nat)
  | func (tag : Nat)
deriving DecidableEq, Repr

/-- JavaScript truthiness (`if (v)`).  `NaN` is not modelled: the store
only ever tests options, strings, sessions and `Date` objects. -/
def JsValue.truthy : JsValue → Bool
  | .undefined => false
  | .null => false
  | .bool b => b
  | .num n => decide (n ≠ 0)
  | .str s => decide (s ≠ "")
  | .obj _ => true
  | .func _ => true

/-- Models the JavaScript test `typeof v === 'function'`. -/
def JsValue.isFunction : JsValue → Bool
  | .func _ => true
  | _ => false

/-- Models JavaScript `a || b`: the first operand if truthy, else the second. -/
def jsOr (a b : JsValue) : JsValue :=
  if a.truthy then a else b

/-- A session document, as inserted at lines 129-133 of connect-loki.js:
`{ _id, session, updatedAt }`.  `updatedAt` is a `Date`; we keep the
timestamp as a `Nat`. -/
structure SessionRecord where
  _id : String
  session : JsValue
  updatedAt : Nat
deriving DecidableEq, Repr

/-- The fields of the caller-supplied options object that the constructor
reads (and, for `logErrors`, possibly writes).  A field the caller did not
supply is `undefined`. -/
structure Options where
  autosave : JsValue := .undefined
  path : JsValue := .undefined
  ttl : JsValue := .undefined
  collection : JsValue := .undefined
  logErrors : JsValue := .undefined
deriving DecidableEq, Repr

/-- The default error logger the constructor installs at lines 61-64
(a fresh closure writing to `console.error`). -/
def consoleErrorLogger : JsValue := .func 0

/-- The shared `_.noop` function (line 14). -/
def noop : JsValue := .func 1

/-- The state of a `LokiStore` instance.  `collection` is `none` until the
`loadDatabase` callback (lines 72-84) has run: before that point
`this.collection` is `undefined`. -/
structure LokiStoreState where
  autosave : Bool
  storePath : JsValue
  ttl : JsValue
  collectionName : JsValue
  logger : JsValue
  collection : Option (List SessionRecord)
deriving DecidableEq, Repr

/-- The `LokiStore` constructor, lines 30-85 (its synchronous part: option
resolution; the `loadDatabase` callback is modelled by
`LokiStore.onConnect`).  Returns the new store state together with the
options object as the constructor leaves it, since lines 59-64 can assign
to `options.logErrors` in place.  `Store.call(this, options)` is the
express-session base constructor and touches none of the modelled fields. -/
def LokiStore.construct (options : Options) : LokiStoreState × Options :=
  let autosave := decide (options.autosave ≠ JsValue.bool false)
  let storePath := jsOr options.path (.str "./session-store.db")
  let ttl0 := jsOr options.ttl (.num 1209600)
  let ttl := if ttl0 = JsValue.num 0 then JsValue.null else ttl0
  let collectionName := jsOr options.collection (.str "Sessions")
  let optionsAfter :=
    if options.logErrors.truthy && !options.logErrors.isFunction then
      { options with logErrors := consoleErrorLogger }
    else options
  let logger := if optionsAfter.logErrors.truthy then optionsAfter.logErrors else noop
  (⟨autosave, storePath, ttl, collectionName, logger, none⟩, optionsAfter)

/-- The `loadDatabase` callback, lines 72-84: `getCollection` returns the
collection loaded from the backing file (`loaded = some docs`) or `null`
(`loaded = none`), in which case `addCollection` creates an empty one.
Afterwards `this.collection` is set and the store emits `connect` (Ready). -/
def LokiStore.onConnect (st : LokiStoreState) (loaded : Option (List SessionRecord)) :
    LokiStoreState :=
  { st with collection := some (loaded.getD []) }

/-- Models `this.collection.find({ _id })`: every document whose `_id`
equals the argument, in insertion order. -/
def findById (coll : List SessionRecord) (i : String) : List SessionRecord :=
  coll.filter (fun r => decide (r._id = i))

/-- Models `collection.update(s[0])` after mutating `s[0]` in place: the
first document with the given `_id` is replaced by `f` applied to it, and
its position in the collection is unchanged. -/
def updateFirst (coll : List SessionRecord) (i : String) (f : SessionRecord → SessionRecord) :
    List SessionRecord :=
  match coll with
  | [] => []
  | r :: rest => if r._id = i then f r :: rest else r :: updateFirst rest i f

/-- A thrown JavaScript exception.  Accessing a method of
`this.collection` while it is `undefined` throws a `TypeError`. -/
inductive JsError where
  | typeError (msg : String)
deriving DecidableEq, Repr

deriving instance DecidableEq for Except

/-- The arguments a façade operation passes to its callback `fn`:
`fn(null)` is `⟨.null, none⟩`, `fn(null, v)` is `⟨.null, some v⟩`, and the
argument-less `fn()` of `touch` is `⟨.undefined, none⟩`. -/
structure CbCall where
  err : JsValue
  value : Option JsValue
deriving DecidableEq, Repr

/-- Result of a façade call: a thrown exception, or the new store state
together with the callback invocation. -/
abbrev CallResult := Except JsError (LokiStoreState × CbCall)

/-- The `TypeError` thrown when a method is read off the `undefined`
`this.collection`. -/
def collectionUndefined : JsError :=
  .typeError "Cannot read properties of undefined"

/-- Value delivered by `get` on a ready collection, lines 104-109: the
first match's `session` when it exists and is truthy (`fn(null, v)`), else
nothing (`fn(null)`). -/
def getCore (coll : List SessionRecord) (i : String) : Option JsValue :=
  match (findById coll i).head? with
  | some r => if r.session.truthy then some r.session else none
  | none => none

/-- `LokiStore.prototype.get`, lines 99-110.  The only operation that
guards `this.collection`: before Ready it answers `fn(null)`. -/
def LokiStore.get (st : LokiStoreState) (i : String) : CallResult :=
  match st.collection with
  | none => .ok (st, ⟨.null, none⟩)
  | some coll => .ok (st, ⟨.null, getCore coll i⟩)

/-- Collection-level effect of `set`, lines 123-134: if the first match
exists and its `session` is truthy, mutate it in place (`session` and
`updatedAt`); otherwise insert a fresh document at the end. -/
def setCore (coll : List SessionRecord) (i : String) (sess : JsValue) (now : Nat) :
    List SessionRecord :=
  match (findById coll i).head? with
  | some r =>
    if r.session.truthy then
      updateFirst coll i (fun r0 => { r0 with session := sess, updatedAt := now })
    else coll ++ [⟨i, sess, now⟩]
  | none => coll ++ [⟨i, sess, now⟩]

/-- `LokiStore.prototype.set`, lines 120-137.  No readiness guard: before
Ready, `this.collection.find` throws. -/
def LokiStore.set (st : LokiStoreState) (i : String) (sess : JsValue) (now : Nat) :
    CallResult :=
  match st.collection with
  | none => .error collectionUndefined
  | some coll =>
    .ok ({ st with collection := some (setCore coll i sess now) }, ⟨.null, none⟩)

/-- Collection-level effect of `destroy`: `findAndRemove({ _id })` removes
every document whose `_id` matches. -/
def destroyCore (coll : List SessionRecord) (i : String) : List SessionRecord :=
  coll.filter (fun r => !(decide (r._id = i)))

/-- `LokiStore.prototype.destroy`, lines 146-150. -/
def LokiStore.destroy (st : LokiStoreState) (i : String) : CallResult :=
  match st.collection with
  | none => .error collectionUndefined
  | some coll => .ok ({ st with collection := some (destroyCore coll i) }, ⟨.null, none⟩)

/-- `LokiStore.prototype.clear`, lines 158-162. -/
def LokiStore.clear (st : LokiStoreState) : CallResult :=
  match st.collection with
  | none => .error collectionUndefined
  | some _ => .ok ({ st with collection := some [] }, ⟨.null, none⟩)

/-- `LokiStore.prototype.length`, lines 170-174: `fn(null, count)`. -/
def LokiStore.length (st : LokiStoreState) : CallResult :=
  match st.collection with
  | none => .error collectionUndefined
  | some coll => .ok (st, ⟨.null, some (.num coll.length)⟩)

/-- Collection-level effect of `touch`, lines 187-191: if the first match
exists (the guard `s[0] && s[0].updatedAt` reduces to existence, because
`updatedAt` is a `Date` object and objects are always truthy), refresh its
`updatedAt` only; the `sess` argument is never written. -/
def touchCore (coll : List SessionRecord) (i : String) (now : Nat) : List SessionRecord :=
  match (findById coll i).head? with
  | some _ => updateFirst coll i (fun r0 => { r0 with updatedAt := now })
  | none => coll

/-- `LokiStore.prototype.touch`, lines 184-194.  Note the callback is
invoked as `fn()`, so the error argument is `undefined`, and the `sess`
parameter is accepted but never stored. -/
def LokiStore.touch (st : LokiStoreState) (i : String) (sess : JsValue) (now : Nat) :
    CallResult :=
  match st.collection with
  | none => .error collectionUndefined
  | some coll =>
    .ok ({ st with collection := some (touchCore coll i now) }, ⟨.undefined, none⟩)

/-- Modelled from the spec: staleness.  The expiry machinery itself lives
in the Loki.js collection (configured with `ttlInterval` at line 77), whose
code is not part of this repository; per the spec, a record is stale when
`now - record.updatedAt >= ttl`. -/
def staleAt (ttl : Int) (now : Nat) (r : SessionRecord) : Bool :=
  decide ((now : Int) - (r.updatedAt : Int) ≥ ttl)

/-- Modelled from the spec: a periodic sweep removes every stale record.
It runs only when the resolved `ttl` is a number (the constructor turns a
disabled ttl into `null`). -/
def LokiStore.sweep (st : LokiStoreState) (now : Nat) : LokiStoreState :=
  match st.ttl, st.collection with
  | .num t, some coll =>
    { st with collection := some (coll.filter (fun r => !(staleAt t now r))) }
  | _, _ => st

/-- Modelled from the spec: sweeps run on a periodic timer whose interval
equals the ttl value itself, so the k-th sweep after a quiet start happens
at time `k * ttl`. -/
def sweepTime (ttl k : Nat) : Nat := k * ttl

/-! ## Shared concrete states for witnesses and counterexamples -/

/-- A store that has just reached Ready with no prior snapshot: the
collection exists and is empty. -/
def emptyReady : LokiStoreState :=
  LokiStore.onConnect (LokiStore.construct {}).1 none

/-- The store obtained from `emptyReady` by `set("a", null)` at time 0:
the falsy payload is stored as a document. -/
def stWithNullA : LokiStoreState :=
  { emptyReady with collection := some [⟨"a", .null, 0⟩] }

/-! ## Helper lemmas about the collection model -/

theorem head?_mem {α : Type} {l : List α} {a : α} (h : l.head? = some a) : a ∈ l := by
  cases l with
  | nil => simp at h
  | cons x xs => simp at h; simp [h]

theorem updateFirst_length (coll : List SessionRecord) (i : String)
    (f : SessionRecord → SessionRecord) :
    (updateFirst coll i f).length = coll.length := by
  induction coll with
  | nil => rfl
  | cons r rest ih =>
    by_cases h : r._id = i <;> simp [updateFirst, h, ih]

theorem findById_eq_nil (coll : List SessionRecord) (i : String) :
    findById coll i = [] ↔ ∀ r ∈ coll, ¬ r._id = i := by
  simp [findById]

theorem updateFirst_eq_self (coll : List SessionRecord) (i : String)
    (f : SessionRecord → SessionRecord) (h : findById coll i = []) :
    updateFirst coll i f = coll := by
  rw [findById_eq_nil] at h
  induction coll with
  | nil => rfl
  | cons r rest ih =>
    simp only [updateFirst]
    rw [if_neg (h r (by simp))]
    simp [ih (fun a ha => h a (by simp [ha]))]

theorem map_proj_updateFirst (coll : List SessionRecord) (i : String)
    (f : SessionRecord → SessionRecord)
    (hf : ∀ r, (f r)._id = r._id ∧ (f r).session = r.session) :
    (updateFirst coll i f).map (fun r => (r._id, r.session))
      = coll.map (fun r => (r._id, r.session)) := by
  induction coll with
  | nil => rfl
  | cons r rest ih =>
    by_cases h : r._id = i
    · simp [updateFirst, h, (hf r).1, (hf r).2]
    · simp [updateFirst, h, ih]

theorem findById_updateFirst_head (coll : List SessionRecord) (i : String)
    (f : SessionRecord → SessionRecord) (hf : ∀ r, (f r)._id = r._id) :
    (findById (updateFirst coll i f) i).head? = ((findById coll i).head?).map f := by
  induction coll with
  | nil => rfl
  | cons r rest ih =>
    by_cases h : r._id = i
    · simp [updateFirst, h, findById, List.filter_cons, hf r]
    · simp [updateFirst, h, findById, List.filter_cons]
      simpa [findById] using ih

theorem findById_updateFirst_length (coll : List SessionRecord) (i : String)
    (f : SessionRecord → SessionRecord) (hf : ∀ r, (f r)._id = r._id) :
    (findById (updateFirst coll i f) i).length = (findById coll i).length := by
  induction coll with
  | nil => rfl
  | cons r rest ih =>
    by_cases h : r._id = i
    · simp [updateFirst, h, findById, List.filter_cons, hf r]
    · simp [updateFirst, h, findById, List.filter_cons]
      simpa [findById] using ih

theorem findById_append (coll l2 : List SessionRecord) (i : String) :
    findById (coll ++ l2) i = findById coll i ++ findById l2 i := by
  simp [findById, List.filter_append]

theorem findById_singleton_self (i : String) (sess : JsValue) (now : Nat) :
    findById [⟨i, sess, now⟩] i = [⟨i, sess, now⟩] := by
  simp [findById, List.filter_cons]

/-! ### Equation lemmas for the match-based operation bodies -/

theorem touchCore_of_head_some {coll : List SessionRecord} {i : String} {r : SessionRecord}
    (hh : (findById coll i).head? = some r) (now : Nat) :
    touchCore coll i now = updateFirst coll i (fun r0 => { r0 with updatedAt := now }) := by
  unfold touchCore; rw [hh]

theorem touchCore_of_head_none {coll : List SessionRecord} {i : String}
    (hh : (findById coll i).head? = none) (now : Nat) :
    touchCore coll i now = coll := by
  unfold touchCore; rw [hh]

theorem setCore_of_head_some_truthy {coll : List SessionRecord} {i : String}
    {r : SessionRecord} (hh : (findById coll i).head? = some r)
    (ht : r.session.truthy = true) (sess : JsValue) (now : Nat) :
    setCore coll i sess now
      = updateFirst coll i (fun r0 => { r0 with session := sess, updatedAt := now }) := by
  unfold setCore; rw [hh]; simp [ht]

theorem setCore_of_head_some_falsy {coll : List SessionRecord} {i : String}
    {r : SessionRecord} (hh : (findById coll i).head? = some r)
    (ht : r.session.truthy = false) (sess : JsValue) (now : Nat) :
    setCore coll i sess now = coll ++ [⟨i, sess, now⟩] := by
  unfold setCore; rw [hh]; simp [ht]

theorem setCore_of_head_none {coll : List SessionRecord} {i : String}
    (hh : (findById coll i).head? = none) (sess : JsValue) (now : Nat) :
    setCore coll i sess now = coll ++ [⟨i, sess, now⟩] := by
  unfold setCore; rw [hh]

theorem getCore_of_head_none {coll : List SessionRecord} {i : String}
    (hh : (findById coll i).head? = none) :
    getCore coll i = none := by
  unfold getCore; rw [hh]

theorem getCore_of_head_some {coll : List SessionRecord} {i : String} {r : SessionRecord}
    (hh : (findById coll i).head? = some r) :
    getCore coll i = if r.session.truthy then some r.session else none := by
  unfold getCore; rw [hh]

/-- Structure eta: a state whose `collection` is known can be written as an
explicit update of itself, after which every façade operation reduces
definitionally. -/
theorem state_eta (st : LokiStoreState) (coll : List SessionRecord)
    (h : st.collection = some coll) :
    st = { st with collection := some coll } := by
  rw [← h]

theorem state_eta_none (st : LokiStoreState) (h : st.collection = none) :
    st = { st with collection := none } := by
  rw [← h]

/-- The callback part of a façade call result. -/
def cbOf (c : CallResult) : Except JsError CbCall :=
  c.map (fun x => x.2)

/-! ### Façade behaviour on a Ready store -/

theorem get_ready (st : LokiStoreState) (coll : List SessionRecord)
    (h : st.collection = some coll) (i : String) :
    LokiStore.get st i = .ok (st, ⟨.null, getCore coll i⟩) := by
  rw [state_eta st coll h]; rfl

theorem set_ready (st : LokiStoreState) (coll : List SessionRecord)
    (h : st.collection = some coll) (i : String) (sess : JsValue) (now : Nat) :
    LokiStore.set st i sess now
      = .ok ({ st with collection := some (setCore coll i sess now) }, ⟨.null, none⟩) := by
  rw [state_eta st coll h]; rfl

theorem destroy_ready (st : LokiStoreState) (coll : List SessionRecord)
    (h : st.collection = some coll) (i : String) :
    LokiStore.destroy st i
      = .ok ({ st with collection := some (destroyCore coll i) }, ⟨.null, none⟩) := by
  rw [state_eta st coll h]; rfl

theorem clear_ready (st : LokiStoreState) (coll : List SessionRecord)
    (h : st.collection = some coll) :
    LokiStore.clear st = .ok ({ st with collection := some [] }, ⟨.null, none⟩) := by
  rw [state_eta st coll h]; rfl

theorem length_ready (st : LokiStoreState) (coll : List SessionRecord)
    (h : st.collection = some coll) :
    LokiStore.length st = .ok (st, ⟨.null, some (.num (coll.length : Int))⟩) := by
  rw [state_eta st coll h]; rfl

theorem touch_ready (st : LokiStoreState) (coll : List SessionRecord)
    (h : st.collection = some coll) (i : String) (sess : JsValue) (now : Nat) :
    LokiStore.touch st i sess now
      = .ok ({ st with collection := some (touchCore coll i now) }, ⟨.undefined, none⟩) := by
  rw [state_eta st coll h]; rfl

/-! ### Façade behaviour before Ready -/

theorem get_pre_ready (st : LokiStoreState) (h : st.collection = none) (i : String) :
    LokiStore.get st i = .ok (st, ⟨.null, none⟩) := by
  rw [state_eta_none st h]; rfl

theorem set_pre_ready (st : LokiStoreState) (h : st.collection = none)
    (i : String) (sess : JsValue) (now : Nat) :
    LokiStore.set st i sess now = .error collectionUndefined := by
  rw [state_eta_none st h]; rfl

theorem destroy_pre_ready (st : LokiStoreState) (h : st.collection = none) (i : String) :
    LokiStore.destroy st i = .error collectionUndefined := by
  rw [state_eta_none st h]; rfl

theorem clear_pre_ready (st : LokiStoreState) (h : st.collection = none) :
    LokiStore.clear st = .error collectionUndefined := by
  rw [state_eta_none st h]; rfl

theorem length_pre_ready (st : LokiStoreState) (h : st.collection = none) :
    LokiStore.length st = .error collectionUndefined := by
  rw [state_eta_none st h]; rfl

theorem touch_pre_ready (st : LokiStoreState) (h : st.collection = none)
    (i : String) (sess : JsValue) (now : Nat) :
    LokiStore.touch st i sess now = .error collectionUndefined := by
  rw [state_eta_none st h]; rfl

/-- Touching never changes which session `get` reports. -/
theorem getCore_touchCore (coll : List SessionRecord) (i : String) (now : Nat) :
    getCore (touchCore coll i now) i = getCore coll i := by
  cases hh : (findById coll i).head? with
  | none => rw [touchCore_of_head_none hh]
  | some r =>
    rw [touchCore_of_head_some hh,
      getCore_of_head_some (r := { r with updatedAt := now })
        (by rw [findById_updateFirst_head coll i
          (fun r0 => { r0 with updatedAt := now }) (fun r0 => rfl), hh]; rfl),
      getCore_of_head_some hh]

/-- A Ready store holding one record with a truthy payload. -/
def recA : SessionRecord := ⟨"a", .str "x", 0⟩

def stA : LokiStoreState :=
  { emptyReady with collection := some [recA] }

/-! ## Claims -/

/-- C1: on a Ready store, `touch(id, payload)` never writes the supplied
payload: the `(_id, session)` projection of the collection is unchanged, a
subsequent `get(id)` returns exactly what it returned before the touch
(the old payload), the first record with the id gets `updatedAt := now`,
and when no record with the id exists the store state is unchanged (no
record is created). -/
theorem touch_refreshes_only_updatedAt
    (st : LokiStoreState) (coll : List SessionRecord) (h : st.collection = some coll)
    (i : String) (p : JsValue) (now : Nat) :
    LokiStore.touch st i p now
      = .ok ({ st with collection := some (touchCore coll i now) }, ⟨.undefined, none⟩) ∧
    (touchCore coll i now).map (fun r => (r._id, r.session))
      = coll.map (fun r => (r._id, r.session)) ∧
    cbOf (LokiStore.get { st with collection := some (touchCore coll i now) } i)
      = cbOf (LokiStore.get st i) ∧
    (∀ r, (findById coll i).head? = some r →
      (findById (touchCore coll i now) i).head? = some { r with updatedAt := now }) ∧
    ((findById coll i).head? = none →
      { st with collection := some (touchCore coll i now) } = st) := by
  refine ⟨touch_ready st coll h i p now, ?_, ?_, ?_, ?_⟩
  · cases hh : (findById coll i).head? with
    | none => rw [touchCore_of_head_none hh]
    | some r =>
      rw [touchCore_of_head_some hh]
      exact map_proj_updateFirst coll i _ (fun r0 => ⟨rfl, rfl⟩)
  · rw [get_ready { st with collection := some (touchCore coll i now) }
        (touchCore coll i now) rfl i, get_ready st coll h i]
    unfold cbOf
    rw [getCore_touchCore]
    rfl
  · intro r hr
    rw [touchCore_of_head_some hr,
      findById_updateFirst_head coll i (fun r0 => { r0 with updatedAt := now })
        (fun r0 => rfl), hr]
    rfl
  · intro hn
    rw [touchCore_of_head_none hn, ← h]

/-- Witness for C1 at a concrete store: touching "a" with payload "y"
leaves the stored record's session at "x" and advances its timestamp. -/
theorem touch_refreshes_only_updatedAt_witness :
    (findById (touchCore [recA] "a" 5) "a").head? = some { recA with updatedAt := 5 } :=
  (touch_refreshes_only_updatedAt stA [recA] rfl "a" (.str "y") 5).2.2.2.1 recA rfl

/-- C6: `get(id)` answers not-found both before the store reaches Ready
(when `this.collection` is still undefined, for every id) and, once Ready,
whenever no record with the id exists; in both cases the call completes
normally as `fn(null)` without blocking, queuing or failing. -/
theorem get_not_found_absent_or_not_ready (st : LokiStoreState) (i : String) :
    (st.collection = none → LokiStore.get st i = .ok (st, ⟨.null, none⟩)) ∧
    (∀ coll, st.collection = some coll → findById coll i = [] →
      LokiStore.get st i = .ok (st, ⟨.null, none⟩)) := by
  constructor
  · intro h
    exact get_pre_ready st h i
  · intro coll h hnil
    rw [get_ready st coll h i, getCore_of_head_none (by rw [hnil]; rfl)]

/-- Witness for C6: a store that has not reached Ready answers `fn(null)`. -/
theorem get_not_found_absent_or_not_ready_witness :
    LokiStore.get (LokiStore.construct {}).1 "sid"
      = .ok ((LokiStore.construct {}).1, ⟨.null, none⟩) :=
  (get_not_found_absent_or_not_ready (LokiStore.construct {}).1 "sid").1 rfl

/-- C8: `destroy(id)` on a Ready store always completes as `fn(null)` with
the matching records removed, destroying twice equals destroying once, and
on a non-existent id the state (hence `length()`) is unchanged. -/
theorem destroy_idempotent (st : LokiStoreState) (coll : List SessionRecord)
    (h : st.collection = some coll) (i : String) :
    LokiStore.destroy st i
      = .ok ({ st with collection := some (destroyCore coll i) }, ⟨.null, none⟩) ∧
    destroyCore (destroyCore coll i) i = destroyCore coll i ∧
    (findById coll i = [] →
      { st with collection := some (destroyCore coll i) } = st ∧
      (destroyCore coll i).length = coll.length) := by
  refine ⟨destroy_ready st coll h i, ?_, ?_⟩
  · simp [destroyCore, List.filter_filter]
  · intro hnil
    have hself : destroyCore coll i = coll := by
      unfold destroyCore
      rw [List.filter_eq_self]
      intro a ha
      rw [findById_eq_nil] at hnil
      simp [hnil a ha]
    rw [hself]
    exact ⟨(state_eta st coll h).symm, rfl⟩

/-- Witness for C8: destroying the absent id "z" leaves the store (and its
count) unchanged. -/
theorem destroy_idempotent_witness :
    { stWithNullA with collection := some (destroyCore [⟨"a", .null, 0⟩] "z") }
      = stWithNullA ∧
    (destroyCore [⟨"a", .null, 0⟩] "z").length
      = [(⟨"a", .null, 0⟩ : SessionRecord)].length :=
  (destroy_idempotent stWithNullA [⟨"a", .null, 0⟩] rfl "z").2.2 rfl

/-- C10: when the first stored record under an id has a falsy `session`
(e.g. after `set(id, null)`), `get(id)` reports not-found, yet the record
is still a member of the collection and is included in the count that
`length()` reports. -/
theorem falsy_session_not_found_but_counted (st : LokiStoreState)
    (coll : List SessionRecord) (h : st.collection = some coll) (i : String)
    (r : SessionRecord) (hr : (findById coll i).head? = some r)
    (hf : r.session.truthy = false) :
    LokiStore.get st i = .ok (st, ⟨.null, none⟩) ∧
    r ∈ coll ∧
    LokiStore.length st = .ok (st, ⟨.null, some (.num (coll.length : Int))⟩) := by
  refine ⟨?_, ?_, length_ready st coll h⟩
  · rw [get_ready st coll h i, getCore_of_head_some hr, hf]
    rfl
  · exact List.mem_of_mem_filter (head?_mem hr)

/-- Witness for C10: after `set("a", null)` the record is invisible to
`get` but counted by `length`. -/
theorem falsy_session_not_found_but_counted_witness :
    LokiStore.get stWithNullA "a" = .ok (stWithNullA, ⟨.null, none⟩) ∧
    (⟨"a", JsValue.null, 0⟩ : SessionRecord) ∈ [(⟨"a", JsValue.null, 0⟩ : SessionRecord)] ∧
    LokiStore.length stWithNullA
      = .ok (stWithNullA, ⟨.null, some (.num (([(⟨"a", JsValue.null, 0⟩ : SessionRecord)].length : Nat) : Int))⟩) :=
  falsy_session_not_found_but_counted stWithNullA [⟨"a", .null, 0⟩] rfl "a"
    ⟨"a", .null, 0⟩ rfl rfl

/-- C3 counterexample: before the store reaches Ready, `this.collection`
is still undefined, and every façade operation except `get` throws a
`TypeError` instead of completing through its callback — so the claim
fails for calls made before Ready. -/
theorem facade_throws_before_ready :
    LokiStore.set (LokiStore.construct {}).1 "sid" (.obj 0) 0 = .error collectionUndefined ∧
    LokiStore.destroy (LokiStore.construct {}).1 "sid" = .error collectionUndefined ∧
    LokiStore.clear (LokiStore.construct {}).1 = .error collectionUndefined ∧
    LokiStore.length (LokiStore.construct {}).1 = .error collectionUndefined ∧
    LokiStore.touch (LokiStore.construct {}).1 "sid" (.obj 0) 0 = .error collectionUndefined :=
  ⟨rfl, rfl, rfl, rfl, rfl⟩

/-- C3 as amended: once the store is Ready, every façade operation on
every input completes by invoking the callback — with error `null`, except
`touch` which calls the argument-less `fn()` (error `undefined`) — and
never throws; before Ready only `get` is guarded, answering not-found. -/
theorem ready_facade_never_throws (st : LokiStoreState) (coll : List SessionRecord)
    (h : st.collection = some coll) (i : String) (p : JsValue) (now : Nat) :
    LokiStore.get st i = .ok (st, ⟨.null, getCore coll i⟩) ∧
    LokiStore.set st i p now
      = .ok ({ st with collection := some (setCore coll i p now) }, ⟨.null, none⟩) ∧
    LokiStore.destroy st i
      = .ok ({ st with collection := some (destroyCore coll i) }, ⟨.null, none⟩) ∧
    LokiStore.clear st = .ok ({ st with collection := some [] }, ⟨.null, none⟩) ∧
    LokiStore.length st = .ok (st, ⟨.null, some (.num (coll.length : Int))⟩) ∧
    LokiStore.touch st i p now
      = .ok ({ st with collection := some (touchCore coll i now) }, ⟨.undefined, none⟩) ∧
    (∀ st0 : LokiStoreState, st0.collection = none →
      LokiStore.get st0 i = .ok (st0, ⟨.null, none⟩)) :=
  ⟨get_ready st coll h i, set_ready st coll h i p now, destroy_ready st coll h i,
    clear_ready st coll h, length_ready st coll h, touch_ready st coll h i p now,
    fun st0 h0 => get_pre_ready st0 h0 i⟩

/-- Witness for the amended C3: `length` on a Ready empty store calls back
with a null error and count 0. -/
theorem ready_facade_never_throws_witness :
    LokiStore.length emptyReady
      = .ok (emptyReady, ⟨.null, some (.num ((([] : List SessionRecord).length : Nat) : Int))⟩) :=
  (ready_facade_never_throws emptyReady [] rfl "a" .null 0).2.2.2.2.1

/-- After a `set` whose stored session will be found first (no falsy record
hides it), the first match under the id is exactly the freshly written
document. -/
theorem setCore_find_head (coll : List SessionRecord) (i : String) (p : JsValue) (now : Nat)
    (hcoll : ((findById coll i).head?.all fun r => r.session.truthy) = true) :
    (findById (setCore coll i p now) i).head? = some ⟨i, p, now⟩ := by
  cases hh : (findById coll i).head? with
  | none =>
    have hnil : findById coll i = [] := by
      cases hfind : findById coll i with
      | nil => rfl
      | cons a l => rw [hfind] at hh; simp at hh
    rw [setCore_of_head_none hh, findById_append, hnil, findById_singleton_self]
    rfl
  | some r =>
    have hid : r._id = i := by
      have hm := head?_mem hh
      unfold findById at hm
      exact of_decide_eq_true (List.mem_filter.mp hm).2
    have htr : r.session.truthy = true := by
      rw [hh] at hcoll; simpa using hcoll
    rw [setCore_of_head_some_truthy hh htr,
      findById_updateFirst_head coll i
        (fun r0 => { r0 with session := p, updatedAt := now }) (fun r0 => rfl), hh]
    obtain ⟨rid, rs, ru⟩ := r
    simp only at hid
    rw [hid]
    rfl

/-- `get` right after such a `set` observes exactly the stored payload,
when that payload is truthy. -/
theorem getCore_setCore (coll : List SessionRecord) (i : String) (p : JsValue)
    (hp : p.truthy = true) (now : Nat)
    (hcoll : ((findById coll i).head?.all fun r => r.session.truthy) = true) :
    getCore (setCore coll i p now) i = some p := by
  rw [getCore_of_head_some (setCore_find_head coll i p now hcoll)]
  simp [hp]

/-- C4 counterexample: at payload `null`, `set("a", null)` does store the
record, but the following `get("a")` answers `fn(null)` — not the stored
payload — because line 105 tests the truthiness of `s[0].session`. -/
theorem set_get_fails_on_falsy_payload :
    LokiStore.set emptyReady "a" JsValue.null 0 = .ok (stWithNullA, ⟨.null, none⟩) ∧
    LokiStore.get stWithNullA "a" = .ok (stWithNullA, ⟨.null, none⟩) ∧
    (⟨JsValue.null, none⟩ : CbCall) ≠ ⟨JsValue.null, some JsValue.null⟩ :=
  ⟨rfl, rfl, by decide⟩

/-- C4 as amended: for every truthy payload, and provided the first stored
record under the id (if any) has a truthy session — otherwise the insert
lands behind the hidden record — `set(id, payload)` followed by `get(id)`
returns exactly the stored payload, uninterpreted. -/
theorem set_then_get_returns_payload (st : LokiStoreState) (coll : List SessionRecord)
    (h : st.collection = some coll) (i : String) (p : JsValue)
    (hp : p.truthy = true) (now : Nat)
    (hcoll : ((findById coll i).head?.all fun r => r.session.truthy) = true) :
    LokiStore.set st i p now
      = .ok ({ st with collection := some (setCore coll i p now) }, ⟨.null, none⟩) ∧
    LokiStore.get { st with collection := some (setCore coll i p now) } i
      = .ok ({ st with collection := some (setCore coll i p now) }, ⟨.null, some p⟩) := by
  refine ⟨set_ready st coll h i p now, ?_⟩
  rw [get_ready _ (setCore coll i p now) rfl i, getCore_setCore coll i p hp now hcoll]

/-- Witness for the amended C4 on a fresh store. -/
theorem set_then_get_returns_payload_witness :
    LokiStore.set emptyReady "a" (.str "v") 3
      = .ok ({ emptyReady with collection := some (setCore [] "a" (.str "v") 3) },
          ⟨.null, none⟩) ∧
    LokiStore.get { emptyReady with collection := some (setCore [] "a" (.str "v") 3) } "a"
      = .ok ({ emptyReady with collection := some (setCore [] "a" (.str "v") 3) },
          ⟨.null, some (.str "v")⟩) :=
  set_then_get_returns_payload emptyReady [] rfl "a" (.str "v") rfl 3 rfl

/-- The store obtained from `stWithNullA` by `set("a", "x")`: the falsy
record makes `set` insert a second document with the same id. -/
def dupSt : LokiStoreState :=
  { emptyReady with collection := some [⟨"a", .null, 0⟩, ⟨"a", .str "x", 7⟩] }

/-- C5 counterexample: with `p1 = null`, `set("a", p1)` then
`set("a", "x")` inserts a second record with the same `_id` instead of
replacing in place: `length()` grows from 1 to 2, two records share the
id, and `get("a")` still answers not-found rather than `p2`. -/
theorem set_set_duplicates_on_falsy_first :
    LokiStore.set stWithNullA "a" (.str "x") 7 = .ok (dupSt, ⟨.null, none⟩) ∧
    LokiStore.length stWithNullA = .ok (stWithNullA, ⟨.null, some (.num 1)⟩) ∧
    LokiStore.length dupSt = .ok (dupSt, ⟨.null, some (.num 2)⟩) ∧
    (findById [⟨"a", .null, 0⟩, ⟨"a", .str "x", 7⟩] "a").length = 2 ∧
    LokiStore.get dupSt "a" = .ok (dupSt, ⟨.null, none⟩) :=
  ⟨rfl, rfl, rfl, by decide, rfl⟩

/-- C5 as amended: for truthy payloads, and provided no falsy-session
record is first under the id, `set(id, p1)` then `set(id, p2)` replaces
the record in place: the collection size and the number of records with
the id are unchanged by the second `set`, `get(id)` returns `p2`, and
`length()` reports the same count as after the first `set`. -/
theorem set_set_replaces_in_place (st : LokiStoreState) (coll : List SessionRecord)
    (i : String) (p1 p2 : JsValue) (h1 : p1.truthy = true) (h2 : p2.truthy = true)
    (t1 t2 : Nat)
    (hcoll : ((findById coll i).head?.all fun r => r.session.truthy) = true) :
    (setCore (setCore coll i p1 t1) i p2 t2).length = (setCore coll i p1 t1).length ∧
    (findById (setCore (setCore coll i p1 t1) i p2 t2) i).length
      = (findById (setCore coll i p1 t1) i).length ∧
    LokiStore.get { st with collection := some (setCore (setCore coll i p1 t1) i p2 t2) } i
      = .ok ({ st with collection := some (setCore (setCore coll i p1 t1) i p2 t2) },
          ⟨.null, some p2⟩) ∧
    LokiStore.length { st with collection := some (setCore (setCore coll i p1 t1) i p2 t2) }
      = .ok ({ st with collection := some (setCore (setCore coll i p1 t1) i p2 t2) },
          ⟨.null, some (.num ((setCore coll i p1 t1).length : Int))⟩) := by
  have hh1 : (findById (setCore coll i p1 t1) i).head? = some ⟨i, p1, t1⟩ :=
    setCore_find_head coll i p1 t1 hcoll
  have hcoll1 : ((findById (setCore coll i p1 t1) i).head?.all
      fun r => r.session.truthy) = true := by
    rw [hh1]; simpa using h1
  have hsec : setCore (setCore coll i p1 t1) i p2 t2
      = updateFirst (setCore coll i p1 t1) i
          (fun r0 => { r0 with session := p2, updatedAt := t2 }) :=
    setCore_of_head_some_truthy hh1 h1 p2 t2
  refine ⟨?_, ?_, ?_, ?_⟩
  · rw [hsec, updateFirst_length]
  · rw [hsec, findById_updateFirst_length (setCore coll i p1 t1) i
      (fun r0 => { r0 with session := p2, updatedAt := t2 }) (fun r0 => rfl)]
  · rw [get_ready _ _ rfl i, getCore_setCore _ i p2 h2 t2 hcoll1]
  · rw [length_ready _ (setCore (setCore coll i p1 t1) i p2 t2) rfl, hsec, updateFirst_length]

/-- Witness for the amended C5: two truthy sets on a fresh store leave one
record and `get` reads back the second payload. -/
theorem set_set_replaces_in_place_witness :
    LokiStore.get { emptyReady with
        collection := some (setCore (setCore [] "a" (.str "u") 1) "a" (.str "v") 2) } "a"
      = .ok ({ emptyReady with
          collection := some (setCore (setCore [] "a" (.str "u") 1) "a" (.str "v") 2) },
          ⟨.null, some (.str "v")⟩) :=
  (set_set_replaces_in_place emptyReady [] "a" (.str "u") (.str "v") rfl rfl 1 2 rfl).2.2.1

/-- One sweep on a store whose resolved ttl is the number `t` keeps
exactly the non-stale records. -/
theorem sweep_eq (st : LokiStoreState) (coll : List SessionRecord)
    (hc : st.collection = some coll) (t : Int) (ht : st.ttl = .num t) (now : Nat) :
    (LokiStore.sweep st now).collection
      = some (coll.filter fun r => !(staleAt t now r)) := by
  unfold LokiStore.sweep
  rw [ht, hc]

/-- A store constructed with `ttl: 2`, after Ready with no prior data. -/
def readyTtl2 : LokiStoreState :=
  LokiStore.onConnect (LokiStore.construct { ttl := .num 2 }).1 none

/-- `readyTtl2` after `set("A", B)` at time 0. -/
def scenarioTtlSt : LokiStoreState :=
  { readyTtl2 with collection := some (setCore [] "A" (.obj 0) 0) }

/-- C7: with a numeric ttl `t`, a sweep at time `now` keeps exactly the
records with `now - updatedAt < t` (every stale record is removed), and in
the spec's scenario — `ttl = 2`, `set("A", B)` at time 0, first sweep at
`sweepTime 2 1 = 2` — `get("A")` answers not-found with no `destroy`
call.  The sweep itself is modelled from the spec (it lives in the Loki.js
ttl daemon, outside this repository); the ttl resolution is the code's. -/
theorem ttl_sweep_expires (st : LokiStoreState) (coll : List SessionRecord)
    (hc : st.collection = some coll) (t : Int) (ht : st.ttl = .num t) (now : Nat) :
    (LokiStore.sweep st now).collection
      = some (coll.filter fun r => !(staleAt t now r)) ∧
    (∀ r ∈ coll, staleAt t now r = true →
      r ∉ (coll.filter fun r => !(staleAt t now r))) ∧
    LokiStore.set readyTtl2 "A" (.obj 0) 0 = .ok (scenarioTtlSt, ⟨.null, none⟩) ∧
    sweepTime 2 1 = 2 ∧
    (LokiStore.sweep scenarioTtlSt (sweepTime 2 1)).collection = some [] ∧
    LokiStore.get (LokiStore.sweep scenarioTtlSt (sweepTime 2 1)) "A"
      = .ok (LokiStore.sweep scenarioTtlSt (sweepTime 2 1), ⟨.null, none⟩) := by
  refine ⟨sweep_eq st coll hc t ht now, ?_, rfl, rfl, rfl, rfl⟩
  intro r hr hstale
  simp [List.mem_filter, hstale]

/-- Witness for C7, at the scenario store itself. -/
theorem ttl_sweep_expires_witness :
    (LokiStore.sweep scenarioTtlSt (sweepTime 2 1)).collection
      = some ((setCore [] "A" (.obj 0) 0).filter fun r => !(staleAt 2 (sweepTime 2 1) r)) :=
  (ttl_sweep_expires scenarioTtlSt (setCore [] "A" (.obj 0) 0) rfl 2 rfl (sweepTime 2 1)).1

/-- A store constructed with `ttl: 0`, after Ready. -/
def ttlZeroReady : LokiStoreState :=
  LokiStore.onConnect (LokiStore.construct { ttl := .num 0 }).1 none

/-- `ttlZeroReady` holding one record written at time 0. -/
def ttlZeroWithRec : LokiStoreState :=
  { ttlZeroReady with collection := some [⟨"a", .obj 0, 0⟩] }

/-- C2 (code bug): `ttl: 0` does NOT disable expiry.  Line 44
(`this.ttl = options.ttl || 1209600`) turns both `0` and an absent ttl
into the 14-day default before the dead check on line 45
(`if (this.ttl === 0) this.ttl = null`) could disable it, so the resolved
ttl is never `null`, expiry stays enabled, and a record set at time 0 is
gone after a sweep at the default ttl. -/
theorem ttl_zero_does_not_disable_expiry :
    (LokiStore.construct { ttl := .num 0 }).1.ttl = .num 1209600 ∧
    (LokiStore.construct {}).1.ttl = .num 1209600 ∧
    (LokiStore.construct { ttl := .num 0 }).1.ttl ≠ JsValue.null ∧
    (LokiStore.sweep ttlZeroWithRec 1209600).collection = some [] ∧
    LokiStore.get (LokiStore.sweep ttlZeroWithRec 1209600) "a"
      = .ok (LokiStore.sweep ttlZeroWithRec 1209600, ⟨.null, none⟩) :=
  ⟨rfl, rfl, by decide, rfl, rfl⟩

/-- C9 counterexample: constructing with `{ logErrors: true }` overwrites
`options.logErrors` in place with the default console logger (lines
59-64), so the caller-supplied options object is mutated. -/
theorem construct_mutates_caller_options :
    (LokiStore.construct { logErrors := .bool true }).2
      = { logErrors := consoleErrorLogger } ∧
    (LokiStore.construct { logErrors := .bool true }).2.logErrors ≠ .bool true :=
  ⟨rfl, by decide⟩

/-- C9 as amended: construction leaves every field of the caller's options
object unchanged — except that when `logErrors` is truthy but not a
function, the constructor overwrites `options.logErrors` in place with the
default console logger. -/
theorem construct_mutation_confined_to_logErrors (options : Options) :
    (LokiStore.construct options).2.autosave = options.autosave ∧
    (LokiStore.construct options).2.path = options.path ∧
    (LokiStore.construct options).2.ttl = options.ttl ∧
    (LokiStore.construct options).2.collection = options.collection ∧
    ((options.logErrors.truthy && !options.logErrors.isFunction) = false →
      (LokiStore.construct options).2 = options) ∧
    ((options.logErrors.truthy && !options.logErrors.isFunction) = true →
      (LokiStore.construct options).2.logErrors = consoleErrorLogger) := by
  by_cases hb : (options.logErrors.truthy && !options.logErrors.isFunction) = true
  · simp [LokiStore.construct, hb]
  · simp [LokiStore.construct, hb]

/-- Witness for the amended C9: a function-valued `logErrors` is left
untouched. -/
theorem construct_mutation_confined_witness :
    (LokiStore.construct { logErrors := .func 5 }).2 = { logErrors := .func 5 } :=
  (construct_mutation_confined_to_logErrors { logErrors := .func 5 }).2.2.2.2.1 rfl
